import Mathlib

/-!
# Verification of the mortgage amortization / early-payment-fee engine

Shallow embedding of the core of the `Real_Estate_Business_Model` repository
(the `src/mortgage` package): the per-track amortization engine
(`MortgageTrack._calculate_payments`), the track variants and their
`calculate_early_payment_fee` methods, the regulatory fee formula and
discount-factor table (`mortgage_financial_utils_il.py`), and the
`MortgagePipeline` aggregation functions.

Real numbers of the Python source are modelled by `ℚ`; Python's `round`
(banker's rounding) is modelled exactly; fallible operations (list indexing,
`raise ValueError`, the `TypeError` in the segmentation code) return
`Except PyError`.
-/

set_option maxHeartbeats 1000000
set_option maxRecDepth 40000

attribute [local semireducible] Rat.add Rat.sub Rat.mul Rat.inv Rat.ofScientific

namespace RealEstateModel

/-- Errors raised by the modelled Python code. -/
inductive PyError
  | valueError
  | indexError
  | typeError
  | zeroDivisionError
  deriving DecidableEq, Repr

/-- Python's built-in `round(x)`: round half to even (banker's rounding).
For a tie (fractional part exactly `1/2`) the result is the even neighbour,
which equals `2 * round (x / 2)`; otherwise it is the nearest integer.
Stated via `Rat.floor` so that it evaluates inside the kernel;
`pyRound_eq` restates it with `Int.fract` and `round`. -/
def pyRound (x : ℚ) : ℤ :=
  if x - x.floor = 1 / 2 then 2 * (x / 2 + 1 / 2).floor else (x + 1 / 2).floor

/-- Python's `round(x, 2)`: round to 2 decimal places, half to even. -/
def pyRound2 (x : ℚ) : ℚ :=
  (pyRound (100 * x) : ℚ) / 100

/-- `numpy_financial.pmt(rate, nper, pv)` with `fv = 0`, payments at end of
period: the level payment of a fully amortizing annuity.  For `rate = 0` the
library returns `-(pv / nper)`. -/
def pmt (rate : ℚ) (nper : ℕ) (pv : ℚ) : ℚ :=
  if rate = 0 then -(pv / nper)
  else -(pv * (1 + rate) ^ nper) * rate / ((1 + rate) ^ nper - 1)

/-- `numpy_financial.npv(rate, values)`: `Σ values[i] / (1+rate)^i`. -/
def npv (rate : ℚ) : List ℚ → ℚ
  | [] => 0
  | x :: xs => x + npv rate xs / (1 + rate)

/-- State held by `MortgageTrack.__init__`
(`src/mortgage/mortgage_tracks/mortgage_track.py`). -/
structure MortgageTrackState where
  interest_rate : ℚ
  num_payments : ℕ
  initial_loan_amount : ℚ
  linked_index : List ℚ
  forecasting_interest_rate : List ℚ
  average_interest_when_taken : ℚ
  interest_only_period : ℕ
  deriving DecidableEq, Repr

/-- The six-tuple produced by `MortgageTrack._calculate_payments`. -/
structure Schedule where
  principal_payments : List ℚ
  interest_payments : List ℚ
  monthly_payments : List ℚ
  remaining_balances : List ℚ
  total_principal_paid : ℚ
  total_interest_paid : ℚ
  deriving DecidableEq, Repr

def Schedule.empty : Schedule :=
  { principal_payments := [], interest_payments := [], monthly_payments := [],
    remaining_balances := [], total_principal_paid := 0, total_interest_paid := 0 }

/-- One iteration of the interest-only loop of `_calculate_payments`
(`for i in range(self.interest_only_period)`): interest is rounded, the
principal payment is `0`, and the balance is left unchanged. -/
def ioLoop (monthly_interest : ℚ) : ℕ → ℚ → Schedule → Schedule
  | 0, _, sch => sch
  | k + 1, remaining_balance, sch =>
    let interest_payment := pyRound2 (remaining_balance * monthly_interest)
    let principal_payment : ℚ := 0
    ioLoop monthly_interest k remaining_balance
      { principal_payments := sch.principal_payments ++ [principal_payment]
        interest_payments := sch.interest_payments ++ [interest_payment]
        monthly_payments := sch.monthly_payments ++ [principal_payment + interest_payment]
        remaining_balances := sch.remaining_balances ++ [remaining_balance]
        total_principal_paid := sch.total_principal_paid
        total_interest_paid := sch.total_interest_paid + interest_payment }

/-- Accumulator of the amortizing loop: the Python locals `remaining_balance`,
`interest_rate` and the four lists / two totals. -/
structure LoopState where
  balance : ℚ
  rate : ℚ
  sch : Schedule
  deriving DecidableEq, Repr

/-- The body of one iteration of the amortizing loop of
`_calculate_payments`, for period `period` with index entry `idx` and
forecasting entry `fr`: apply index growth to the balance, apply rate drift
to the (never re-read) local `interest_rate`, charge interest at
`monthly_interest`, recompute the annuity payment over the remaining
term against the current balance, accumulate the unrounded totals, then
round principal, interest and balance to 2 decimals and append them. -/
def amortStep (monthly_interest : ℚ) (num_payments period : ℕ) (idx fr : ℚ)
    (st : LoopState) : LoopState :=
  let remaining_balance := st.balance * (1 + idx)
  let interest_rate := st.rate * (1 + fr)
  let interest_payment := remaining_balance * monthly_interest
  let principal_payment :=
    pmt monthly_interest (num_payments - (period - 1)) (-remaining_balance)
      - interest_payment
  let remaining_balance := remaining_balance - principal_payment
  let total_principal_paid := st.sch.total_principal_paid + principal_payment
  let total_interest_paid := st.sch.total_interest_paid + interest_payment
  let principal_payment := pyRound2 principal_payment
  let interest_payment := pyRound2 interest_payment
  let remaining_balance := pyRound2 remaining_balance
  { balance := remaining_balance
    rate := interest_rate
    sch :=
      { principal_payments := st.sch.principal_payments ++ [principal_payment]
        interest_payments := st.sch.interest_payments ++ [interest_payment]
        monthly_payments :=
          st.sch.monthly_payments ++ [principal_payment + interest_payment]
        remaining_balances := st.sch.remaining_balances ++ [remaining_balance]
        total_principal_paid := total_principal_paid
        total_interest_paid := total_interest_paid } }

/-- The amortizing loop of `_calculate_payments`
(`for period in range(1, num_payments + 1)` with
`num_payments = self.num_payments - self.interest_only_period`).
List subscripts `linked_index[period - 1]` and
`forecasting_interest_rate[period - 1]` raise `IndexError` when out of
bounds.  Note that the loop multiplies the local `interest_rate` by
`(1 + forecasting_interest_rate[period - 1])` but `monthly_interest` was
computed once before the loop and is never recomputed. -/
def amortLoop (monthly_interest : ℚ) (num_payments : ℕ) (li fi : List ℚ) :
    List ℕ → LoopState → Except PyError LoopState
  | [], st => .ok st
  | period :: rest, st =>
    match li.get? (period - 1), fi.get? (period - 1) with
    | some idx, some fr =>
      amortLoop monthly_interest num_payments li fi rest
        (amortStep monthly_interest num_payments period idx fr st)
    | _, _ => .error .indexError

/-- `MortgageTrack._calculate_payments`
(`src/mortgage/mortgage_tracks/mortgage_track.py`, lines 113-167). -/
def calculatePayments (t : MortgageTrackState) : Except PyError Schedule := do
  let monthly_interest := t.interest_rate / 12
  let ioSch := ioLoop monthly_interest t.interest_only_period t.initial_loan_amount
    Schedule.empty
  let num_payments := t.num_payments - t.interest_only_period
  let st ← amortLoop monthly_interest num_payments t.linked_index
    t.forecasting_interest_rate (List.range' 1 num_payments)
    { balance := t.initial_loan_amount, rate := t.interest_rate, sch := ioSch }
  return st.sch

/-- `MortgageTrack.get_monthly_payments` (element 2 of the tuple). -/
def getMonthlyPayments (t : MortgageTrackState) : Except PyError (List ℚ) :=
  (calculatePayments t).map (·.monthly_payments)

/-- `MortgageTrack.get_interest_payments` (element 1 of the tuple). -/
def getInterestPayments (t : MortgageTrackState) : Except PyError (List ℚ) :=
  (calculatePayments t).map (·.interest_payments)

/-- `MortgageTrack.get_remaining_balances` (element 3 of the tuple). -/
def getRemainingBalances (t : MortgageTrackState) : Except PyError (List ℚ) :=
  (calculatePayments t).map (·.remaining_balances)

/-- `MortgageTrack.calculate_initial_monthly_payment`:
`npf.pmt(self.interest_rate / 12, self.num_payments, -self.initial_loan_amount)`. -/
def calculateInitialMonthlyPayment (t : MortgageTrackState) : ℚ :=
  pmt (t.interest_rate / 12) t.num_payments (-t.initial_loan_amount)

/-- Python truthiness default `xs if xs else [0.0] * 360` used by
`MortgageTrack.__init__`: `None` and the empty list are falsy. -/
def defaultList (xs : Option (List ℚ)) (dflt : List ℚ) : List ℚ :=
  match xs with
  | some l => if l.isEmpty then dflt else l
  | none => dflt

/-- Python truthiness default `x if x else interest_rate` used by
`MortgageTrack.__init__` for `average_interest_when_taken`: `None` and `0.0`
are falsy. -/
def defaultRat (x : Option ℚ) (dflt : ℚ) : ℚ :=
  match x with
  | some a => if a = 0 then dflt else a
  | none => dflt

/-- `MortgageTrack.__init__`
(`src/mortgage/mortgage_tracks/mortgage_track.py`, lines 15-23). -/
def initMortgageTrack (interest_rate : ℚ) (num_payments : ℕ)
    (initial_loan_amount : ℚ) (linked_index : Option (List ℚ))
    (forecasting_interest_rate : Option (List ℚ))
    (average_interest_when_taken : Option ℚ) (interest_only_period : ℕ) :
    MortgageTrackState :=
  { interest_rate := interest_rate
    num_payments := num_payments
    initial_loan_amount := initial_loan_amount
    linked_index := defaultList linked_index (List.replicate 360 0)
    forecasting_interest_rate :=
      defaultList forecasting_interest_rate (List.replicate 360 0)
    average_interest_when_taken :=
      defaultRat average_interest_when_taken interest_rate
    interest_only_period := interest_only_period }

instance {ε α : Type} [DecidableEq ε] [DecidableEq α] :
    DecidableEq (Except ε α) := fun a b =>
  match a, b with
  | .ok a, .ok b => decidable_of_iff (a = b) (by simp)
  | .error a, .error b => decidable_of_iff (a = b) (by simp)
  | .ok _, .error _ => isFalse (by intro h; cases h)
  | .error _, .ok _ => isFalse (by intro h; cases h)

/-- `calculate_early_payment_fee`
(`src/mortgage/mortgage_utils/mortgage_financial_utils_il.py`, lines 6-28):
the regulatory discounted-cash-flow-differential formula.  `A`, `C`, `R` are
annual rates (divided by 12 on entry); `B` is the future payment stream; `n`
is the number of periods to the next rate reset, clamped to `len B` when
negative or past the end. -/
def calculate_early_payment_fee (A : ℚ) (B : List ℚ) (C R : ℚ) (n : ℤ) : ℤ :=
  let A := A / 12
  let C := C / 12
  let R := R / 12
  let n : ℤ := if n < 0 ∨ n > (B.length : ℤ) then (B.length : ℤ) else n
  let B_n := B.take n.toNat
  let B_N := B.drop n.toNat
  let C := min C R
  let aa := npv A ((0 : ℚ) :: B_n)
  let bb := (1 / (1 + A) ^ n.toNat) * npv R ((0 : ℚ) :: B_N)
  let cc := npv C ((0 : ℚ) :: B_n)
  let dd := (1 / (1 + C) ^ n.toNat) * npv R ((0 : ℚ) :: B_N)
  pyRound (aa + bb - (cc + dd))

/-- `calculate_discount_factor`
(`src/mortgage/mortgage_utils/mortgage_financial_utils_il.py`, lines 32-53). -/
def calculate_discount_factor (num_of_months : ℤ) (eligibility_present : Bool) : ℚ :=
  if eligibility_present then
    if num_of_months ≥ 48 then 6 / 10
    else if num_of_months ≥ 36 then 7 / 10
    else if num_of_months ≥ 24 then 8 / 10
    else if num_of_months ≥ 12 then 9 / 10
    else 1
  else
    if num_of_months ≥ 60 then 7 / 10
    else if num_of_months ≥ 36 then 8 / 10
    else 1

/-- The concrete `MortgageTrack` subclasses.  `ConstantNotLinked`,
`Eligibility` and `Prime` are present under `src/mortgage/mortgage_tracks/`;
`ChangeLinked` is present in the repository's older duplicate package
(`src/mortgage_tracks/change_linked.py`); `ConstantLinked` and
`ChangeNotLinked` are referenced by the enums, the pipeline tests and
`main.py` but their modules are absent from the repository, so their fee
bodies are modelled from the spec (see `Track.calculateEarlyPaymentFee`). -/
inductive TrackKind
  | constantNotLinked
  | constantLinked
  | changeLinked
  | changeNotLinked
  | eligibility
  | prime
  deriving DecidableEq, Repr

/-- A constructed track: variant tag plus the base-class state (the
`Change*` variants additionally carry `interest_changing_period`). -/
inductive Track
  | constantNotLinked (s : MortgageTrackState)
  | constantLinked (s : MortgageTrackState)
  | changeLinked (s : MortgageTrackState) (interest_changing_period : ℤ)
  | changeNotLinked (s : MortgageTrackState) (interest_changing_period : ℤ)
  | eligibility (s : MortgageTrackState)
  | prime (s : MortgageTrackState)
  deriving DecidableEq, Repr

def Track.state : Track → MortgageTrackState
  | .constantNotLinked s => s
  | .constantLinked s => s
  | .changeLinked s _ => s
  | .changeNotLinked s _ => s
  | .eligibility s => s
  | .prime s => s

/-- `track.__class__`. -/
def Track.kind : Track → TrackKind
  | .constantNotLinked _ => .constantNotLinked
  | .constantLinked _ => .constantLinked
  | .changeLinked _ _ => .changeLinked
  | .changeNotLinked _ _ => .changeNotLinked
  | .eligibility _ => .eligibility
  | .prime _ => .prime

/-- `isinstance(track, Eligibility)`. -/
def Track.isEligibility (t : Track) : Bool :=
  t.kind = .eligibility

/-- Python list slicing `l[m:]` for a possibly negative `int` index `m`:
a negative index counts from the end (`len(l) + m`, clamped at 0). -/
def pySliceFrom (l : List ℚ) (m : ℤ) : List ℚ :=
  if m < 0 then l.drop ((l.length : ℤ) + m).toNat else l.drop m.toNat

/-- Per-variant `calculate_early_payment_fee` methods.

* `ConstantNotLinked` (`constant_not_linked.py`, lines 11-24): validates
  `num_of_months >= 0` and `average_interest_in_early_payment >= 0`
  (raising `ValueError` otherwise), then delegates to the regulatory formula
  with the remaining payment stream `get_monthly_payments()[num_of_months:]`,
  passing `self.interest_rate` in the `C` position,
  `self.average_interest_when_taken` in the `R` position, and `n = -1`.
* `Eligibility` (`eligibility.py`, lines 10-21) and `Prime`
  (`prime.py`, lines 10-20): always return `0` after the same validation.
* `ChangeLinked` (`src/mortgage_tracks/change_linked.py`, lines 14-17): NO
  validation.  Builds the level stream
  `[calculate_initial_monthly_payment()] * num_payments`, slices it with
  Python semantics `[num_of_months:]` (a negative index silently counts from
  the end), and applies the regulatory formula with
  `n = interest_changing_period`.  Its import
  `src.mortgage_utils.mortgage_financial_utils` is absent from the
  repository; per the spec it is the same regulatory formula as the `_il`
  module embedded above.
* `ConstantLinked`: module absent from the repository.  Modelled from the
  spec: a fixed linked track validates its arguments and applies the full
  regulatory formula over its own (index-linked) payment schedule with no
  reset horizon, like the other fixed track.
* `ChangeNotLinked`: module absent from the repository.  Modelled from the
  spec: a periodic-reset track validates its arguments and applies the
  formula to a future-payment projection under frozen current-period
  assumptions (a level stream of the initial monthly payment), with the
  reset horizon `interest_changing_period` as `n`. -/
def Track.calculateEarlyPaymentFee (t : Track) (num_of_months : ℤ)
    (average_interest_in_early_payment : ℚ) : Except PyError ℤ :=
  match t with
  | .constantNotLinked s =>
    if num_of_months < 0 ∨ average_interest_in_early_payment < 0 then
      .error .valueError
    else do
      let mp ← getMonthlyPayments s
      .ok (calculate_early_payment_fee average_interest_in_early_payment
        (mp.drop num_of_months.toNat) s.interest_rate
        s.average_interest_when_taken (-1))
  | .constantLinked s =>
    if num_of_months < 0 ∨ average_interest_in_early_payment < 0 then
      .error .valueError
    else do
      let mp ← getMonthlyPayments s
      .ok (calculate_early_payment_fee average_interest_in_early_payment
        (mp.drop num_of_months.toNat) s.interest_rate
        s.average_interest_when_taken (-1))
  | .changeLinked s icp =>
    .ok (calculate_early_payment_fee average_interest_in_early_payment
      (pySliceFrom (List.replicate s.num_payments
        (calculateInitialMonthlyPayment s)) num_of_months)
      s.interest_rate s.average_interest_when_taken icp)
  | .changeNotLinked s icp =>
    if num_of_months < 0 ∨ average_interest_in_early_payment < 0 then
      .error .valueError
    else
      .ok (calculate_early_payment_fee average_interest_in_early_payment
        ((List.replicate s.num_payments (calculateInitialMonthlyPayment s)).drop
          num_of_months.toNat)
        s.interest_rate s.average_interest_when_taken icp)
  | .eligibility _ =>
    if num_of_months < 0 ∨ average_interest_in_early_payment < 0 then
      .error .valueError
    else
      .ok 0
  | .prime _ =>
    if num_of_months < 0 ∨ average_interest_in_early_payment < 0 then
      .error .valueError
    else
      .ok 0

/-- `ConstantNotLinked.__init__`: forwards to the base constructor with no
`linked_index` and no `forecasting_interest_rate`. -/
def ConstantNotLinked.init (interest_rate : ℚ) (num_payments : ℕ)
    (initial_loan_amount : ℚ) (average_interest_when_taken : Option ℚ)
    (interest_only_period : ℕ) : Track :=
  .constantNotLinked (initMortgageTrack interest_rate num_payments
    initial_loan_amount none none average_interest_when_taken
    interest_only_period)

/-- `Eligibility.__init__`: forwards to the base constructor with an explicit
`linked_index` and no `interest_only_period`. -/
def Eligibility.init (interest_rate : ℚ) (num_payments : ℕ)
    (initial_loan_amount : ℚ) (linked_index : List ℚ)
    (average_interest_when_taken : Option ℚ) : Track :=
  .eligibility (initMortgageTrack interest_rate num_payments
    initial_loan_amount (some linked_index) none average_interest_when_taken 0)

/-- `Prime.__init__`: forwards to the base constructor with an explicit
`forecasting_interest_rate`. -/
def Prime.init (interest_rate : ℚ) (num_payments : ℕ)
    (initial_loan_amount : ℚ) (forecasting_interest_rate : List ℚ)
    (average_interest_when_taken : Option ℚ) (interest_only_period : ℕ) :
    Track :=
  .prime (initMortgageTrack interest_rate num_payments initial_loan_amount
    none (some forecasting_interest_rate) average_interest_when_taken
    interest_only_period)

/-- `ChangeLinked.__init__` (`src/mortgage_tracks/change_linked.py`, lines
8-12): forwards to the base constructor with explicit `linked_index` and
`forecasting_interest_rate` and stores `interest_changing_period`. -/
def ChangeLinked.init (interest_rate : ℚ) (num_payments : ℕ)
    (initial_loan_amount : ℚ) (linked_index : List ℚ)
    (forecasting_interest_rate : List ℚ) (interest_changing_period : ℤ)
    (average_interest_when_taken : Option ℚ) (interest_only_period : ℕ) :
    Track :=
  .changeLinked (initMortgageTrack interest_rate num_payments
    initial_loan_amount (some linked_index) (some forecasting_interest_rate)
    average_interest_when_taken interest_only_period) interest_changing_period

/-! ## MortgagePipeline (`src/mortgage/mortgage_pipeline.py`) -/

/-- Element-wise addition of two payment sequences, zero-padding the shorter
one (the `fillvalue=0` of `itertools.zip_longest`): positions past the end of
one list take that list's contribution as `0`. -/
def addPad : List ℚ → List ℚ → List ℚ
  | [], ys => ys
  | x :: xs, [] => x :: xs
  | x :: xs, y :: ys => (x + y) :: addPad xs ys

/-- `[sum(x) for x in itertools.zip_longest(*ls, fillvalue=0)]` — as the
source comments put it, "Pad the lists with zeros and perform element-wise
addition": each position of the result is the sum of the entries of all
lists at that position, an exhausted list contributing `0`, and the result
has the length of the longest list. -/
def zipLongestSum (ls : List (List ℚ)) : List ℚ :=
  ls.foldr addPad []

/-- `MortgagePipeline.get_monthly_payments` (lines 124-134):
`[round(sum(x)) for x in zip_longest(*monthly_payments_list, fillvalue=0)]`. -/
def pipelineGetMonthlyPayments (tracks : List Track) :
    Except PyError (List ℤ) := do
  let monthly_payments_list ← tracks.mapM (fun t => getMonthlyPayments t.state)
  .ok ((zipLongestSum monthly_payments_list).map pyRound)

/-- `MortgagePipeline.calculate_early_payment_fee` (lines 277-292).  The
caller supplies `average_interest_in_early_payment` as a dict keyed by track
class, modelled as a function from `TrackKind`. -/
def pipelineCalculateEarlyPaymentFee (tracks : List Track) (num_of_months : ℤ)
    (average_interest_in_early_payment : TrackKind → ℚ) :
    Except PyError ℤ := do
  let fees ← tracks.mapM (fun t =>
    t.calculateEarlyPaymentFee num_of_months
      (average_interest_in_early_payment t.kind))
  let full_early_payment_fee : ℤ := fees.sum
  let eligibility_present := tracks.any Track.isEligibility
  let discount_factor := calculate_discount_factor num_of_months
    eligibility_present
  .ok (pyRound (discount_factor * (full_early_payment_fee : ℚ)))

/-! ## Track classification (`mortgage_enums/linkage_type.py`,
`mortgage_enums/interest_type.py`) and segmentation
(`mortgage_pipeline.py`, lines 305-338) -/

/-- `LinkageType.Linked.value = {ChangeLinked, ConstantLinked, Eligibility}`. -/
def LinkageTypeLinked : List TrackKind :=
  [.changeLinked, .constantLinked, .eligibility]

/-- `LinkageType.NotLinked.value = {ChangeNotLinked, ConstantNotLinked}`. -/
def LinkageTypeNotLinked : List TrackKind :=
  [.changeNotLinked, .constantNotLinked]

/-- `LinkageType.Prime.value = {Prime}`. -/
def LinkageTypePrime : List TrackKind := [.prime]

/-- `InterestType.Constant.value = {ConstantLinked, ConstantNotLinked}`. -/
def InterestTypeConstant : List TrackKind :=
  [.constantLinked, .constantNotLinked]

/-- `InterestType.NotConstant.value = {Eligibility, ChangeLinked, ChangeNotLinked}`. -/
def InterestTypeNotConstant : List TrackKind :=
  [.eligibility, .changeLinked, .changeNotLinked]

/-- `InterestType.Prime.value = {Prime}`. -/
def InterestTypePrime : List TrackKind := [.prime]

/-- Python equality between a track *instance* and a *class object*, as
evaluated by `track in {Class1, Class2}`: an instance never compares equal to
a class, so this is `False` for every pair. -/
def instanceEqClass (_ : Track) (_ : TrackKind) : Bool := false

/-- Python's `track in LinkageType.X.value`: membership of the track instance
in a set of class objects, i.e. equality of the instance with some class. -/
def instanceMemClassSet (t : Track) (classes : List TrackKind) : Bool :=
  classes.any (instanceEqClass t)

/-- `isinstance(track, cls)` for the concrete (leaf) track classes. -/
def isinstance (t : Track) (cls : TrackKind) : Bool :=
  t.kind = cls

/-- `MortgagePipeline.get_tracks_percentages_dic` (lines 69-77): each track's
`initial_loan_amount / total_initial_loan_amount`.  With a non-empty track
list and a zero total the Python division raises `ZeroDivisionError`; with no
tracks, no division is evaluated.  (Python keys the dict by track object
identity; tracks are modelled as values, which agrees on pipelines whose
tracks are pairwise distinct values.) -/
def getTracksPercentages (tracks : List Track) :
    Except PyError (List (Track × ℚ)) :=
  let total := (tracks.map (fun t => t.state.initial_loan_amount)).sum
  if tracks.isEmpty then .ok []
  else if total = 0 then .error .zeroDivisionError
  else .ok (tracks.map (fun t => (t, t.state.initial_loan_amount / total)))

/-- `MortgagePipeline.calculate_index_linkage_segmentation` (lines 305-316):
each entry filters the percentage dict by `track in LinkageType.X.value`. -/
def calculate_index_linkage_segmentation (tracks : List Track) :
    Except PyError (ℚ × ℚ × ℚ) := do
  let p1 ← getTracksPercentages tracks
  let linked :=
    ((p1.filter fun q => instanceMemClassSet q.1 LinkageTypeLinked).map
      fun q => q.2).sum
  let p2 ← getTracksPercentages tracks
  let notLinked :=
    ((p2.filter fun q => instanceMemClassSet q.1 LinkageTypeNotLinked).map
      fun q => q.2).sum
  let p3 ← getTracksPercentages tracks
  let prime :=
    ((p3.filter fun q => instanceMemClassSet q.1 LinkageTypePrime).map
      fun q => q.2).sum
  .ok (linked, notLinked, prime)

/-- `MortgagePipeline.calculate_interest_type_segmentation` (lines 319-338).
The `Constant` and `NotConstant` entries use
`any(isinstance(track, class_type) for class_type in ...)`; the `Prime` entry
evaluates `track in any(isinstance(track, class_type) for ...)`, i.e.
`track in <bool>`, which raises `TypeError` as soon as one track is
examined (an empty pipeline evaluates no condition). -/
def calculate_interest_type_segmentation (tracks : List Track) :
    Except PyError (ℚ × ℚ × ℚ) := do
  let p1 ← getTracksPercentages tracks
  let constant :=
    ((p1.filter fun q => InterestTypeConstant.any (isinstance q.1)).map
      fun q => q.2).sum
  let p2 ← getTracksPercentages tracks
  let notConstant :=
    ((p2.filter fun q => InterestTypeNotConstant.any (isinstance q.1)).map
      fun q => q.2).sum
  let p3 ← getTracksPercentages tracks
  if p3.isEmpty then .ok (constant, notConstant, 0)
  else .error .typeError

/-! ## Basic properties of the rounding model -/

theorem ratFloor_eq_intFloor (q : ℚ) : q.floor = ⌊q⌋ := by
  rw [Rat.floor_def' q, Rat.floor_def]

/-- `pyRound` restated with Mathlib's `Int.fract` and `round`. -/
theorem pyRound_eq (x : ℚ) :
    pyRound x = if Int.fract x = 1 / 2 then 2 * round (x / 2) else round x := by
  unfold pyRound
  rw [ratFloor_eq_intFloor, ratFloor_eq_intFloor, ratFloor_eq_intFloor,
    round_eq, round_eq]
  rfl

theorem pyRound_zero : pyRound 0 = 0 := by
  rw [pyRound_eq, Int.fract_zero]
  norm_num

theorem pyRound2_zero : pyRound2 0 = 0 := by
  unfold pyRound2
  norm_num [pyRound_zero]

theorem npv_nil (r : ℚ) : npv r [] = 0 := rfl

theorem npv_zero_list (r : ℚ) : npv r [0] = 0 := by
  simp [npv]

/-! ## List and monad helper lemmas -/

theorem mapM_ok_of_forall₂ {α β : Type} {F : α → Except PyError β} :
    ∀ {ts : List α} {fs : List β},
      List.Forall₂ (fun t f => F t = .ok f) ts fs → ts.mapM F = .ok fs := by
  intro ts fs h
  induction h with
  | nil => rfl
  | cons h₁ _ ih =>
    rw [List.mapM_cons, h₁, ih]
    rfl

theorem addPad_length : ∀ xs ys : List ℚ,
    (addPad xs ys).length = max xs.length ys.length
  | [], ys => by simp [addPad]
  | x :: xs, [] => by simp [addPad]
  | x :: xs, y :: ys => by
    simp [addPad, addPad_length xs ys, Nat.succ_max_succ]

theorem addPad_getD : ∀ (xs ys : List ℚ) (i : ℕ),
    (addPad xs ys).getD i 0 = xs.getD i 0 + ys.getD i 0
  | [], ys, i => by simp [addPad]
  | x :: xs, [], i => by simp [addPad]
  | x :: xs, y :: ys, 0 => by simp [addPad]
  | x :: xs, y :: ys, i + 1 => by
    simp only [addPad, List.getD_cons_succ]
    exact addPad_getD xs ys i

theorem zipLongestSum_length (ls : List (List ℚ)) :
    (zipLongestSum ls).length = (ls.map List.length).foldr max 0 := by
  induction ls with
  | nil => rfl
  | cons l ls ih =>
    simp only [zipLongestSum, List.foldr_cons, List.map_cons] at *
    rw [addPad_length, ih]

theorem zipLongestSum_getD (ls : List (List ℚ)) (i : ℕ) :
    (zipLongestSum ls).getD i 0 = (ls.map (fun l => l.getD i 0)).sum := by
  induction ls with
  | nil => simp [zipLongestSum]
  | cons l ls ih =>
    simp only [zipLongestSum, List.foldr_cons, List.map_cons, List.sum_cons] at *
    rw [addPad_getD, ih]

/-! ## Lemmas about the amortization engine -/

theorem pmt_one (m b : ℚ) : pmt m 1 (-b) = b * (1 + m) := by
  unfold pmt
  split
  · next h => subst h; norm_num
  · next h =>
    rw [pow_one]
    have h1 : (1 + m) - 1 = m := by ring
    rw [h1]
    field_simp

theorem amortLoop_nil (m : ℚ) (K : ℕ) (li fi : List ℚ) (st : LoopState) :
    amortLoop m K li fi [] st = .ok st := rfl

theorem amortLoop_cons (m : ℚ) (K : ℕ) (li fi : List ℚ) (p : ℕ)
    (rest : List ℕ) (st : LoopState) :
    amortLoop m K li fi (p :: rest) st =
      match li.get? (p - 1), fi.get? (p - 1) with
      | some idx, some fr =>
        amortLoop m K li fi rest (amortStep m K p idx fr st)
      | _, _ => .error .indexError := rfl

theorem amortLoop_cons_some (m : ℚ) (K : ℕ) {li fi : List ℚ} {p : ℕ}
    (rest : List ℕ) (st : LoopState) {idx fr : ℚ}
    (h1 : li.get? (p - 1) = some idx) (h2 : fi.get? (p - 1) = some fr) :
    amortLoop m K li fi (p :: rest) st =
      amortLoop m K li fi rest (amortStep m K p idx fr st) := by
  rw [amortLoop_cons, h1, h2]

theorem amortLoop_cons_oob (m : ℚ) (K : ℕ) {li fi : List ℚ} {p : ℕ}
    (rest : List ℕ) (st : LoopState)
    (h : li.get? (p - 1) = none ∨ fi.get? (p - 1) = none) :
    amortLoop m K li fi (p :: rest) st = .error .indexError := by
  rw [amortLoop_cons]
  rcases h with h | h
  · rw [h]
  · rw [h]
    rcases li.get? (p - 1) with _ | idx <;> rfl

theorem amortLoop_append (m : ℚ) (K : ℕ) (li fi : List ℚ) :
    ∀ (ps qs : List ℕ) (st : LoopState),
      amortLoop m K li fi (ps ++ qs) st =
        (amortLoop m K li fi ps st).bind (amortLoop m K li fi qs) := by
  intro ps
  induction ps with
  | nil => intro qs st; rfl
  | cons p ps ih =>
    intro qs st
    rcases h1 : li.get? (p - 1) with _ | idx
    · rw [List.cons_append, amortLoop_cons_oob m K (ps ++ qs) st (Or.inl h1),
        amortLoop_cons_oob m K ps st (Or.inl h1)]
      rfl
    · rcases h2 : fi.get? (p - 1) with _ | fr
      · rw [List.cons_append, amortLoop_cons_oob m K (ps ++ qs) st (Or.inr h2),
          amortLoop_cons_oob m K ps st (Or.inr h2)]
        rfl
      · rw [List.cons_append, amortLoop_cons_some m K (ps ++ qs) st h1 h2,
          amortLoop_cons_some m K ps st h1 h2, ih]

theorem amortLoop_error_eq (m : ℚ) (K : ℕ) (li fi : List ℚ) :
    ∀ (ps : List ℕ) (st : LoopState) (e : PyError),
      amortLoop m K li fi ps st = .error e → e = .indexError := by
  intro ps
  induction ps with
  | nil => intro st e h; cases h
  | cons p ps ih =>
    intro st e h
    rcases h1 : li.get? (p - 1) with _ | idx
    · rw [amortLoop_cons_oob m K ps st (Or.inl h1)] at h
      cases h
      rfl
    · rcases h2 : fi.get? (p - 1) with _ | fr
      · rw [amortLoop_cons_oob m K ps st (Or.inr h2)] at h
        cases h
        rfl
      · rw [amortLoop_cons_some m K ps st h1 h2] at h
        exact ih _ _ h

theorem amortLoop_ok_of_bounds (m : ℚ) (K : ℕ) (li fi : List ℚ) :
    ∀ (ps : List ℕ) (st : LoopState),
      (∀ p ∈ ps, p - 1 < li.length ∧ p - 1 < fi.length) →
      ∃ st', amortLoop m K li fi ps st = .ok st' := by
  intro ps
  induction ps with
  | nil => intro st _; exact ⟨st, rfl⟩
  | cons p ps ih =>
    intro st hb
    obtain ⟨hli, hfi⟩ := hb p (List.mem_cons_self p ps)
    rw [amortLoop_cons_some m K ps st (List.get?_eq_get hli) (List.get?_eq_get hfi)]
    exact ih _ fun q hq => hb q (List.mem_cons_of_mem p hq)

/-- The schedule produced by the amortizing loop does not depend on the
`forecasting_interest_rate` entries nor on the running `interest_rate`
local: both only feed the dead `rate` field. -/
theorem amortLoop_sch_congr (m : ℚ) (K : ℕ) (li f g : List ℚ) :
    ∀ (ps : List ℕ) (st₁ st₂ : LoopState),
      st₁.balance = st₂.balance → st₁.sch = st₂.sch →
      (∀ p ∈ ps, (f.get? (p - 1)).isSome) →
      (∀ p ∈ ps, (g.get? (p - 1)).isSome) →
      (amortLoop m K li f ps st₁).map LoopState.sch =
        (amortLoop m K li g ps st₂).map LoopState.sch := by
  intro ps
  induction ps with
  | nil => intro st₁ st₂ _ hsch _ _; simp [amortLoop_nil, Except.map, hsch]
  | cons p ps ih =>
    intro st₁ st₂ hbal hsch hf hg
    rcases h1 : li.get? (p - 1) with _ | idx
    · rw [amortLoop_cons_oob m K ps st₁ (Or.inl h1),
        amortLoop_cons_oob m K ps st₂ (Or.inl h1)]
    · obtain ⟨fr₁, h2⟩ := Option.isSome_iff_exists.mp
        (hf p (List.mem_cons_self p ps))
      obtain ⟨fr₂, h3⟩ := Option.isSome_iff_exists.mp
        (hg p (List.mem_cons_self p ps))
      rw [amortLoop_cons_some m K ps st₁ h1 h2,
        amortLoop_cons_some m K ps st₂ h1 h3]
      refine ih _ _ ?_ ?_ (fun q hq => hf q (List.mem_cons_of_mem p hq))
        (fun q hq => hg q (List.mem_cons_of_mem p hq)) <;>
        simp only [amortStep, hbal, hsch]

theorem ioLoop_balance (m : ℚ) :
    ∀ (k : ℕ) (b : ℚ) (sch : Schedule),
      (ioLoop m k b sch).remaining_balances =
        sch.remaining_balances ++ List.replicate k b := by
  intro k
  induction k with
  | zero => intro b sch; simp [ioLoop]
  | succ k ih =>
    intro b sch
    rw [ioLoop, ih]
    simp [List.replicate_succ, List.append_assoc]

/-- `_calculate_payments` succeeds whenever both per-period arrays cover the
amortizing term. -/
theorem calculatePayments_ok (t : MortgageTrackState)
    (hli : t.num_payments - t.interest_only_period ≤ t.linked_index.length)
    (hfi : t.num_payments - t.interest_only_period ≤
      t.forecasting_interest_rate.length) :
    ∃ s, calculatePayments t = .ok s := by
  obtain ⟨st', hst⟩ := amortLoop_ok_of_bounds (t.interest_rate / 12)
    (t.num_payments - t.interest_only_period) t.linked_index
    t.forecasting_interest_rate
    (List.range' 1 (t.num_payments - t.interest_only_period))
    { balance := t.initial_loan_amount, rate := t.interest_rate
      sch := ioLoop (t.interest_rate / 12) t.interest_only_period
        t.initial_loan_amount Schedule.empty }
    (by
      intro p hp
      rw [List.mem_range'_1] at hp
      omega)
  refine ⟨st'.sch, ?_⟩
  rw [calculatePayments]
  rw [hst]
  rfl

/-- The only error `_calculate_payments` can produce is `IndexError`. -/
theorem calculatePayments_error_eq (t : MortgageTrackState) (e : PyError)
    (h : calculatePayments t = .error e) : e = .indexError := by
  rw [calculatePayments] at h
  rcases hl : amortLoop (t.interest_rate / 12)
      (t.num_payments - t.interest_only_period) t.linked_index
      t.forecasting_interest_rate
      (List.range' 1 (t.num_payments - t.interest_only_period))
      { balance := t.initial_loan_amount, rate := t.interest_rate
        sch := ioLoop (t.interest_rate / 12) t.interest_only_period
          t.initial_loan_amount Schedule.empty } with e' | st'
  · rw [hl] at h
    have h' : Except.error (α := Schedule) e' = Except.error e := h
    cases h'
    exact amortLoop_error_eq _ _ _ _ _ _ _ hl
  · rw [hl] at h
    have h' : Except.ok (ε := PyError) st'.sch = Except.error e := h
    cases h'

theorem except_ok_bind {α β : Type} (a : α) (f : α → Except PyError β) :
    (Except.ok a >>= f) = f a := rfl

theorem except_okb_bind {α β : Type} (a : α) (f : α → Except PyError β) :
    (Except.ok a).bind f = f a := rfl

theorem except_error_bind {α β : Type} (e : PyError) (f : α → Except PyError β) :
    (Except.error e >>= f) = .error e := rfl

theorem getMonthlyPayments_error_eq (t : MortgageTrackState) (e : PyError)
    (h : getMonthlyPayments t = .error e) : e = .indexError := by
  unfold getMonthlyPayments at h
  rcases hc : calculatePayments t with e' | s
  · rw [hc] at h
    have h' : Except.error (α := List ℚ) e' = Except.error e := h
    cases h'
    exact calculatePayments_error_eq t e hc
  · rw [hc] at h
    have h' : Except.ok (ε := PyError) s.monthly_payments = Except.error e := h
    cases h'

/-- With no reset horizon, the regulatory fee vanishes when all three rates
agree: the two NPV terms coincide and the reset terms are NPVs of `[0]`. -/
theorem fee_zero_of_all_rates_eq (r : ℚ) (B : List ℚ) :
    calculate_early_payment_fee r B r r (-1) = 0 := by
  have hgt : (-1 : ℤ) < 0 ∨ (-1 : ℤ) > (B.length : ℤ) := Or.inl (by norm_num)
  simp only [calculate_early_payment_fee, if_pos hgt, Int.toNat_natCast,
    List.take_length, List.drop_length, npv_zero_list, mul_zero, min_self]
  have h0 : npv (r / 12) ((0 : ℚ) :: B) + 0 -
      (npv (r / 12) ((0 : ℚ) :: B) + 0) = 0 := by ring
  rw [h0, pyRound_zero]

/-! ## Claim theorems -/

/-- **C9**: when `n < 0` or `n > len B` (so `n` is clamped to `len B` and the
post-reset stream is empty), `calculate_early_payment_fee` is symmetric in
its `C` and `R` arguments: the result depends on them only through
`min C R`, so the argument order used by `ConstantNotLinked` — contract rate
in the `C` position and `average_interest_when_taken` in the `R` position —
does not change the fee. -/
theorem claim_C9 (A : ℚ) (B : List ℚ) (C R : ℚ) (n : ℤ)
    (hA : 0 ≤ A) (hC : 0 ≤ C) (hR : 0 ≤ R)
    (hn : n < 0 ∨ (B.length : ℤ) < n) :
    calculate_early_payment_fee A B C R n =
      calculate_early_payment_fee A B R C n := by
  have hgt : n < 0 ∨ n > (B.length : ℤ) := hn
  simp only [calculate_early_payment_fee, if_pos hgt, Int.toNat_natCast,
    List.take_length, List.drop_length, npv_zero_list, mul_zero,
    min_comm (C / 12) (R / 12)]

/-- Witness for C9 at a concrete stream and swapped rates. -/
theorem claim_C9_witness :
    calculate_early_payment_fee (2 / 100) [50, 50] (4 / 100) (3 / 100) (-1) =
      calculate_early_payment_fee (2 / 100) [50, 50] (3 / 100) (4 / 100) (-1) :=
  claim_C9 (2 / 100) [50, 50] (4 / 100) (3 / 100) (-1) (by norm_num)
    (by norm_num) (by norm_num) (Or.inl (by norm_num))

/-- **C7**: for a fixed, non-linked track whose reference rate at prepayment,
`average_interest_when_taken` and `interest_rate` are all equal, the early
payment fee is `0` for every non-negative `num_of_months` (provided the
amortizing term is covered by the default 360-entry arrays, so the schedule
computation succeeds). -/
theorem claim_C7 (rate amt : ℚ) (n iop : ℕ) (avgO : Option ℚ) (m : ℤ)
    (hm : 0 ≤ m) (hr : 0 ≤ rate)
    (havg : defaultRat avgO rate = rate)
    (hK : n - iop ≤ 360) :
    (ConstantNotLinked.init rate n amt avgO iop).calculateEarlyPaymentFee
      m rate = .ok 0 := by
  unfold ConstantNotLinked.init
  have hguard : ¬(m < 0 ∨ rate < 0) := by
    push_neg
    exact ⟨hm, hr⟩
  obtain ⟨s, hs⟩ := calculatePayments_ok
    (initMortgageTrack rate n amt none none avgO iop)
    (by
      show n - iop ≤ (List.replicate 360 (0 : ℚ)).length
      rw [List.length_replicate]
      exact hK)
    (by
      show n - iop ≤ (List.replicate 360 (0 : ℚ)).length
      rw [List.length_replicate]
      exact hK)
  have hmp : getMonthlyPayments (initMortgageTrack rate n amt none none avgO iop)
      = .ok s.monthly_payments := by
    rw [getMonthlyPayments, hs]
    rfl
  simp only [Track.calculateEarlyPaymentFee, if_neg hguard, hmp, except_ok_bind]
  show Except.ok (calculate_early_payment_fee rate _ rate (defaultRat avgO rate)
    (-1)) = Except.ok 0
  rw [havg, fee_zero_of_all_rates_eq]

/-- Witness for C7: 4%/12-month track, all three rates 4%, month 3. -/
theorem claim_C7_witness :
    (ConstantNotLinked.init (4 / 100) 12 1000 none 0).calculateEarlyPaymentFee
      3 (4 / 100) = .ok 0 :=
  claim_C7 (4 / 100) 1000 12 0 none 3 (by norm_num) (by norm_num) rfl
    (by norm_num)

/-- **C6 (amended)**: for every track variant except `ChangeLinked`,
`calculate_early_payment_fee` raises `ValueError` exactly when
`num_of_months < 0` or `average_interest_in_early_payment < 0`; the check
precedes the fee computation, so no other execution path produces this
error.  `ChangeLinked` (`src/mortgage_tracks/change_linked.py`) performs no
validation: a negative `num_of_months` silently slices the level payment
stream from the end and a fee is returned (see the counterexample). -/
theorem claim_C6 (t : Track) (m : ℤ) (a : ℚ) (hk : t.kind ≠ .changeLinked) :
    t.calculateEarlyPaymentFee m a = .error .valueError ↔ m < 0 ∨ a < 0 := by
  constructor
  · intro h
    by_contra hneg
    push_neg at hneg
    obtain ⟨hm, ha⟩ := hneg
    have hguard : ¬(m < 0 ∨ a < 0) := by
      push_neg
      exact ⟨hm, ha⟩
    cases t with
    | constantNotLinked s =>
      simp only [Track.calculateEarlyPaymentFee, if_neg hguard] at h
      rcases he : getMonthlyPayments s with e | mp
      · rw [he] at h
        have h' : Except.error (α := ℤ) e = Except.error .valueError := h
        cases h'
        cases getMonthlyPayments_error_eq s _ he
      · rw [he] at h
        have h' : Except.ok (ε := PyError)
            (calculate_early_payment_fee a (mp.drop m.toNat) s.interest_rate
              s.average_interest_when_taken (-1)) = Except.error .valueError := h
        cases h'
    | constantLinked s =>
      simp only [Track.calculateEarlyPaymentFee, if_neg hguard] at h
      rcases he : getMonthlyPayments s with e | mp
      · rw [he] at h
        have h' : Except.error (α := ℤ) e = Except.error .valueError := h
        cases h'
        cases getMonthlyPayments_error_eq s _ he
      · rw [he] at h
        have h' : Except.ok (ε := PyError)
            (calculate_early_payment_fee a (mp.drop m.toNat) s.interest_rate
              s.average_interest_when_taken (-1)) = Except.error .valueError := h
        cases h'
    | changeLinked s icp =>
      exact absurd rfl hk
    | changeNotLinked s icp =>
      simp only [Track.calculateEarlyPaymentFee, if_neg hguard] at h
      cases h
    | eligibility s =>
      simp only [Track.calculateEarlyPaymentFee, if_neg hguard] at h
      cases h
    | prime s =>
      simp only [Track.calculateEarlyPaymentFee, if_neg hguard] at h
      cases h
  · intro h
    cases t <;> first
      | exact absurd rfl hk
      | simp only [Track.calculateEarlyPaymentFee, if_pos h]

/-- Witness for C6: on an `Eligibility` track (not `ChangeLinked`) a negative
month count raises `ValueError`. -/
theorem claim_C6_witness :
    (Track.eligibility (initMortgageTrack (3 / 100) 240 50000
        (some (List.replicate 240 0)) none none 0)).calculateEarlyPaymentFee
      (-1) (2 / 100) = .error .valueError :=
  (claim_C6 _ (-1) (2 / 100) (by decide)).mpr (Or.inl (by norm_num))

/-- Counterexample to C6 as stated: `ChangeLinked` (2 payments of 10000 at
rate 0, `interest_changing_period = 1`) called with `num_of_months = -1 < 0`
and reference rate 24% does not raise `ValueError`; Python's negative slice
keeps the last payment and the method silently returns the fee `-98`. -/
theorem claim_C6_counterexample :
    (ChangeLinked.init 0 2 10000 [0, 0] [0, 0] 1 none 0).calculateEarlyPaymentFee
        (-1) (24 / 100) = .ok (-98) ∧
    ((-1 : ℤ) < 0) := by
  refine ⟨by decide, by decide⟩

/-- **C10**: a track constructed without `linked_index` and
`forecasting_interest_rate` gets 360-entry all-zero defaults; the schedule
computation reads indices `0 … num_payments - interest_only_period - 1`, so
it succeeds whenever `num_payments - interest_only_period ≤ 360` and fails
with `IndexError` for any longer amortizing term. -/
theorem claim_C10 (rate amt : ℚ) (n iop : ℕ) (avgO : Option ℚ) :
    (initMortgageTrack rate n amt none none avgO iop).linked_index =
        List.replicate 360 0 ∧
    (initMortgageTrack rate n amt none none avgO iop).forecasting_interest_rate =
        List.replicate 360 0 ∧
    (n - iop ≤ 360 →
      ∃ s, calculatePayments (initMortgageTrack rate n amt none none avgO iop) =
        .ok s) ∧
    (360 < n - iop →
      calculatePayments (initMortgageTrack rate n amt none none avgO iop) =
        .error .indexError) := by
  refine ⟨rfl, rfl, fun h => calculatePayments_ok _
    (by
      show n - iop ≤ (List.replicate 360 (0 : ℚ)).length
      rw [List.length_replicate]
      exact h)
    (by
      show n - iop ≤ (List.replicate 360 (0 : ℚ)).length
      rw [List.length_replicate]
      exact h), fun h => ?_⟩
  have hsplit : List.range' 1 (n - iop) =
      List.range' 1 360 ++ List.range' 361 (n - iop - 360) := by
    have hap := List.range'_append 1 360 (n - iop - 360) 1
    rw [show (1 : ℕ) + 1 * 360 = 361 from by norm_num,
      show n - iop - 360 + 360 = n - iop from by omega] at hap
    exact hap.symm
  have hcp : calculatePayments (initMortgageTrack rate n amt none none avgO iop) =
      (amortLoop (rate / 12) (n - iop) (List.replicate 360 0)
        (List.replicate 360 0) (List.range' 1 (n - iop))
        { balance := amt, rate := rate
          sch := ioLoop (rate / 12) iop amt Schedule.empty }) >>=
        (fun st => pure st.sch) := rfl
  rw [hcp, hsplit, amortLoop_append]
  obtain ⟨st', hst⟩ := amortLoop_ok_of_bounds (rate / 12) (n - iop)
    (List.replicate 360 0) (List.replicate 360 0) (List.range' 1 360)
    { balance := amt, rate := rate
      sch := ioLoop (rate / 12) iop amt Schedule.empty }
    (by
      intro p hp
      rw [List.mem_range'_1] at hp
      constructor <;>
        simp only [List.length_replicate] <;> omega)
  rw [hst, except_okb_bind]
  have hK1 : n - iop - 360 = (n - iop - 361) + 1 := by omega
  rw [hK1, List.range'_succ]
  rw [amortLoop_cons_oob (rate / 12) (n - iop) _ st'
    (Or.inl (List.get?_eq_none.mpr (by
      simp only [List.length_replicate]
      omega)))]
  rfl

/-- Witness for C10: a 361-month default-array track fails with `IndexError`;
a 360-month one succeeds. -/
theorem claim_C10_witness :
    calculatePayments (initMortgageTrack (4 / 100) 361 1000 none none none 0) =
        .error .indexError ∧
    ∃ s, calculatePayments
        (initMortgageTrack (4 / 100) 360 1000 none none none 0) = .ok s :=
  ⟨(claim_C10 (4 / 100) 1000 361 0 none).2.2.2 (by norm_num),
    (claim_C10 (4 / 100) 1000 360 0 none).2.2.1 (by norm_num)⟩

/-- **C5**: the pipeline early-payment fee is
`round(discount_factor * (sum of the per-track fees))`, with a single factor
determined by `num_of_months` and by whether any pipeline track is an
`Eligibility` variant, via the spec's table; the factor multiplies the
pipeline-level sum once. -/
theorem claim_C5 (tracks : List Track) (m : ℤ) (rates : TrackKind → ℚ)
    (fees : List ℤ)
    (h : List.Forall₂
      (fun t f => t.calculateEarlyPaymentFee m (rates t.kind) = .ok f)
      tracks fees) :
    pipelineCalculateEarlyPaymentFee tracks m rates =
      .ok (pyRound ((if tracks.any Track.isEligibility then
          if m ≥ 48 then 6 / 10
          else if m ≥ 36 then 7 / 10
          else if m ≥ 24 then 8 / 10
          else if m ≥ 12 then 9 / 10
          else 1
        else
          if m ≥ 60 then 7 / 10
          else if m ≥ 36 then 8 / 10
          else 1) * ((fees.sum : ℤ) : ℚ))) := by
  unfold pipelineCalculateEarlyPaymentFee
  rw [mapM_ok_of_forall₂ h, except_ok_bind]
  rfl

/-- Witness for C5: eligibility + prime pipeline at month 48 (factor 0.6),
both track fees 0. -/
theorem claim_C5_witness :
    pipelineCalculateEarlyPaymentFee
      [Track.eligibility (initMortgageTrack (3 / 100) 240 50000
          (some (List.replicate 240 0)) none none 0),
        Track.prime (initMortgageTrack (2 / 100) 120 50000 none
          (some (List.replicate 120 0)) none 0)] 48 (fun _ => 2 / 100) =
      .ok 0 := by
  have h := claim_C5
    [Track.eligibility (initMortgageTrack (3 / 100) 240 50000
        (some (List.replicate 240 0)) none none 0),
      Track.prime (initMortgageTrack (2 / 100) 120 50000 none
        (some (List.replicate 120 0)) none 0)] 48 (fun _ => 2 / 100) [0, 0]
    (List.Forall₂.cons (by decide)
      (List.Forall₂.cons (by decide) List.Forall₂.nil))
  rw [h]
  decide

/-- **C4** (amended): each element of the pipeline monthly-payment series is
the *rounded* sum, over all tracks, of that track's payment at the same
index, a track shorter than the longest contributing `0` past its own term;
the series has the length of the longest schedule (right zero-padding, never
truncation). -/
theorem claim_C4 (tracks : List Track) (mpls : List (List ℚ))
    (h : List.Forall₂ (fun t l => getMonthlyPayments t.state = .ok l)
      tracks mpls) :
    ∃ res : List ℤ,
      pipelineGetMonthlyPayments tracks = .ok res ∧
      res.length = (mpls.map List.length).foldr max 0 ∧
      ∀ i : ℕ, i < res.length →
        res.get? i = some (pyRound ((mpls.map (fun l => l.getD i 0)).sum)) := by
  refine ⟨(zipLongestSum mpls).map pyRound, ?_, ?_, ?_⟩
  · unfold pipelineGetMonthlyPayments
    rw [mapM_ok_of_forall₂ h, except_ok_bind]
  · rw [List.length_map, zipLongestSum_length]
  · intro i hi
    rw [List.length_map] at hi
    rw [List.get?_map, List.get?_eq_get hi]
    have hgd : (zipLongestSum mpls).get ⟨i, hi⟩ =
        (mpls.map (fun l => l.getD i 0)).sum := by
      rw [← List.getD_eq_get (zipLongestSum mpls) 0 hi, zipLongestSum_getD]
    rw [Option.map_some', hgd]

/-- Counterexample for C4 as stated: two identical one-month tracks, each
with monthly payment `100.33`; the pipeline element is the rounded sum
`201`, not the exact sum `200.66`. -/
theorem claim_C4_counterexample :
    getMonthlyPayments (ConstantNotLinked.init (4 / 100) 1 100 none 0).state =
        .ok [10033 / 100] ∧
    pipelineGetMonthlyPayments [ConstantNotLinked.init (4 / 100) 1 100 none 0,
        ConstantNotLinked.init (4 / 100) 1 100 none 0] = .ok [201] ∧
    (201 : ℚ) ≠ 10033 / 100 + 10033 / 100 := by
  refine ⟨by decide, by decide, by decide⟩

/-- Witness for C4 at a concrete two-track pipeline. -/
theorem claim_C4_witness :
    ∃ res : List ℤ,
      pipelineGetMonthlyPayments [ConstantNotLinked.init (4 / 100) 1 100 none 0,
        ConstantNotLinked.init (4 / 100) 1 100 none 0] = .ok res ∧
      res.length =
        (([[(10033 : ℚ) / 100], [(10033 : ℚ) / 100]].map List.length).foldr
          max 0) ∧
      ∀ i : ℕ, i < res.length →
        res.get? i = some (pyRound
          (([[(10033 : ℚ) / 100], [(10033 : ℚ) / 100]].map
            (fun l => l.getD i 0)).sum)) :=
  claim_C4 _ [[(10033 : ℚ) / 100], [(10033 : ℚ) / 100]]
    (List.Forall₂.cons (by decide)
      (List.Forall₂.cons (by decide) List.Forall₂.nil))

/-- **C1** (code-bug evidence): the schedule computed by
`_calculate_payments` is *independent of the forecasting path*: the loop
multiplies the local `interest_rate` by `(1 + forecasting_rate[period-1])`
but never reads it again, and `monthly_interest` is fixed before the loop at
the construction-time rate, so the interest charge never reflects the rate
drift. -/
theorem claim_C1 (t : MortgageTrackState) (f g : List ℚ)
    (hf : t.num_payments - t.interest_only_period ≤ f.length)
    (hg : t.num_payments - t.interest_only_period ≤ g.length) :
    calculatePayments { t with forecasting_interest_rate := f } =
      calculatePayments { t with forecasting_interest_rate := g } := by
  have hsome : ∀ (L : List ℚ),
      t.num_payments - t.interest_only_period ≤ L.length →
      ∀ p ∈ List.range' 1 (t.num_payments - t.interest_only_period),
        ((L.get? (p - 1)).isSome) = true := by
    intro L hL p hp
    rw [List.mem_range'_1] at hp
    rw [List.get?_eq_get (show p - 1 < L.length by omega)]
    rfl
  have h := amortLoop_sch_congr (t.interest_rate / 12)
    (t.num_payments - t.interest_only_period) t.linked_index f g
    (List.range' 1 (t.num_payments - t.interest_only_period))
    { balance := t.initial_loan_amount, rate := t.interest_rate
      sch := ioLoop (t.interest_rate / 12) t.interest_only_period
        t.initial_loan_amount Schedule.empty }
    { balance := t.initial_loan_amount, rate := t.interest_rate
      sch := ioLoop (t.interest_rate / 12) t.interest_only_period
        t.initial_loan_amount Schedule.empty }
    rfl rfl (hsome f hf) (hsome g hg)
  have hcpf : calculatePayments { t with forecasting_interest_rate := f } =
      (amortLoop (t.interest_rate / 12)
        (t.num_payments - t.interest_only_period) t.linked_index f
        (List.range' 1 (t.num_payments - t.interest_only_period))
        { balance := t.initial_loan_amount, rate := t.interest_rate
          sch := ioLoop (t.interest_rate / 12) t.interest_only_period
            t.initial_loan_amount Schedule.empty }) >>=
        (fun st => pure st.sch) := rfl
  have hcpg : calculatePayments { t with forecasting_interest_rate := g } =
      (amortLoop (t.interest_rate / 12)
        (t.num_payments - t.interest_only_period) t.linked_index g
        (List.range' 1 (t.num_payments - t.interest_only_period))
        { balance := t.initial_loan_amount, rate := t.interest_rate
          sch := ioLoop (t.interest_rate / 12) t.interest_only_period
            t.initial_loan_amount Schedule.empty }) >>=
        (fun st => pure st.sch) := rfl
  rw [hcpf, hcpg]
  rcases h1 : amortLoop (t.interest_rate / 12)
      (t.num_payments - t.interest_only_period) t.linked_index f
      (List.range' 1 (t.num_payments - t.interest_only_period))
      { balance := t.initial_loan_amount, rate := t.interest_rate
        sch := ioLoop (t.interest_rate / 12) t.interest_only_period
          t.initial_loan_amount Schedule.empty } with e1 | s1 <;>
    rcases h2 : amortLoop (t.interest_rate / 12)
        (t.num_payments - t.interest_only_period) t.linked_index g
        (List.range' 1 (t.num_payments - t.interest_only_period))
        { balance := t.initial_loan_amount, rate := t.interest_rate
          sch := ioLoop (t.interest_rate / 12) t.interest_only_period
            t.initial_loan_amount Schedule.empty } with e2 | s2 <;>
    rw [h1, h2] at h <;>
    simp only [Except.map] at h
  · cases h
    rfl
  · cases h
  · cases h
  · injection h with hss
    show Except.ok s1.sch = Except.ok s2.sch
    rw [hss]

/-- Witness for C1: a one-month track whose forecasting entry doubles the
rate produces the same schedule as the zero-forecast track, and charges
month-1 interest `100` = `10000 × (12%/12)` — the construction-time rate,
not the drifted one. -/
theorem claim_C1_witness :
    calculatePayments (initMortgageTrack (12 / 100) 1 10000 (some [0])
        (some [1]) none 0) =
      calculatePayments (initMortgageTrack (12 / 100) 1 10000 (some [0])
        (some [0]) none 0) ∧
    getInterestPayments (initMortgageTrack (12 / 100) 1 10000 (some [0])
        (some [1]) none 0) = .ok [100] := by
  constructor
  · exact claim_C1 (initMortgageTrack (12 / 100) 1 10000 (some [0]) (some [1])
      none 0) [1] [0] (by decide) (by decide)
  · decide

/-- **C8** (code-bug evidence): for a pipeline holding one
`ConstantNotLinked` track — a variant registered in
`LinkageType.NotLinked` — the linkage segmentation silently returns all-zero
shares (the `track in {classes}` test is always false), and the
interest-type segmentation raises `TypeError` (from `track in any(...)`)
instead of any Unrecognized-variant error. -/
theorem claim_C8 :
    calculate_index_linkage_segmentation
        [ConstantNotLinked.init (4 / 100) 12 100000 none 0] = .ok (0, 0, 0) ∧
    calculate_interest_type_segmentation
        [ConstantNotLinked.init (4 / 100) 12 100000 none 0] =
      .error .typeError := by
  refine ⟨by decide, by decide⟩

theorem instanceMemClassSet_eq_false (t : Track) (cs : List TrackKind) :
    instanceMemClassSet t cs = false := by
  induction cs with
  | nil => rfl
  | cons c cs ih =>
    simp only [instanceMemClassSet, instanceEqClass, List.any_cons,
      Bool.false_or] at *
    exact ih

/-- Every linkage segmentation that returns at all returns all-zero shares,
for every pipeline: no track instance is ever a member of a set of class
objects. -/
theorem linkage_segmentation_silently_zero (tracks : List Track)
    (ps : List (Track × ℚ)) (h : getTracksPercentages tracks = .ok ps) :
    calculate_index_linkage_segmentation tracks = .ok (0, 0, 0) := by
  unfold calculate_index_linkage_segmentation
  rw [h]
  simp only [except_ok_bind, instanceMemClassSet_eq_false]
  simp

/-- **C2** (amended): for every track whose `linked_index` entries are all
zero and whose `interest_only_period` is strictly below `num_payments`, the
last element of `get_remaining_balances()` is exactly `0` — the final
period's annuity payment retires the whole (rounded) balance, so the claimed
rounding tolerance of `0.01 × num_payments` holds with room to spare, and
ignoring rounding the loan fully amortizes. -/
theorem claim_C2 (t : MortgageTrackState)
    (hzero : ∀ q ∈ t.linked_index, q = 0)
    (hli : t.num_payments - t.interest_only_period ≤ t.linked_index.length)
    (hfi : t.num_payments - t.interest_only_period ≤
      t.forecasting_interest_rate.length)
    (hiop : t.interest_only_period < t.num_payments) :
    ∃ bal : List ℚ, getRemainingBalances t = .ok bal ∧
      bal.getLast? = some 0 := by
  have hK1 : 1 ≤ t.num_payments - t.interest_only_period := by omega
  have hsplit : List.range' 1 (t.num_payments - t.interest_only_period) =
      List.range' 1 (t.num_payments - t.interest_only_period - 1) ++
        [t.num_payments - t.interest_only_period] := by
    have hap := List.range'_append 1
      (t.num_payments - t.interest_only_period - 1) 1 1
    rw [show (1 : ℕ) + 1 * (t.num_payments - t.interest_only_period - 1) =
        t.num_payments - t.interest_only_period from by omega,
      show (1 : ℕ) + (t.num_payments - t.interest_only_period - 1) =
        t.num_payments - t.interest_only_period from by omega,
      List.range'_one] at hap
    exact hap.symm
  have hcp : calculatePayments t =
      (amortLoop (t.interest_rate / 12)
        (t.num_payments - t.interest_only_period) t.linked_index
        t.forecasting_interest_rate
        (List.range' 1 (t.num_payments - t.interest_only_period))
        { balance := t.initial_loan_amount, rate := t.interest_rate
          sch := ioLoop (t.interest_rate / 12) t.interest_only_period
            t.initial_loan_amount Schedule.empty }) >>=
        (fun st => pure st.sch) := rfl
  obtain ⟨st', hst⟩ := amortLoop_ok_of_bounds (t.interest_rate / 12)
    (t.num_payments - t.interest_only_period) t.linked_index
    t.forecasting_interest_rate
    (List.range' 1 (t.num_payments - t.interest_only_period - 1))
    { balance := t.initial_loan_amount, rate := t.interest_rate
      sch := ioLoop (t.interest_rate / 12) t.interest_only_period
        t.initial_loan_amount Schedule.empty }
    (by
      intro p hp
      rw [List.mem_range'_1] at hp
      omega)
  have hidx : t.linked_index.get?
      (t.num_payments - t.interest_only_period - 1) = some 0 := by
    have hlt : t.num_payments - t.interest_only_period - 1 <
        t.linked_index.length := by omega
    rw [List.get?_eq_get hlt]
    exact congrArg some (hzero _ (List.get_mem _ _ _))
  obtain ⟨fr, hfr⟩ : ∃ fr, t.forecasting_interest_rate.get?
      (t.num_payments - t.interest_only_period - 1) = some fr :=
    ⟨_, List.get?_eq_get (by omega)⟩
  have hlast : amortLoop (t.interest_rate / 12)
      (t.num_payments - t.interest_only_period) t.linked_index
      t.forecasting_interest_rate
      [t.num_payments - t.interest_only_period] st' =
      .ok (amortStep (t.interest_rate / 12)
        (t.num_payments - t.interest_only_period)
        (t.num_payments - t.interest_only_period) 0 fr st') := by
    rw [amortLoop_cons_some _ _ [] st' hidx hfr, amortLoop_nil]
  refine ⟨(amortStep (t.interest_rate / 12)
      (t.num_payments - t.interest_only_period)
      (t.num_payments - t.interest_only_period) 0 fr
      st').sch.remaining_balances, ?_, ?_⟩
  · rw [getRemainingBalances, hcp, hsplit, amortLoop_append, hst,
      except_okb_bind, hlast]
    rfl
  · have hKK : t.num_payments - t.interest_only_period -
        (t.num_payments - t.interest_only_period - 1) = 1 := by omega
    show (st'.sch.remaining_balances ++
      [pyRound2 (st'.balance * (1 + 0) -
        (pmt (t.interest_rate / 12)
          (t.num_payments - t.interest_only_period -
            (t.num_payments - t.interest_only_period - 1))
          (-(st'.balance * (1 + 0))) -
          st'.balance * (1 + 0) * (t.interest_rate / 12)))]).getLast? = some 0
    rw [hKK, pmt_one,
      show st'.balance * (1 + 0) -
        (st'.balance * (1 + 0) * (1 + t.interest_rate / 12) -
          st'.balance * (1 + 0) * (t.interest_rate / 12)) = 0 from by ring,
      pyRound2_zero, List.getLast?_concat]

/-- Counterexample for C2 as stated: a track whose `interest_only_period`
equals `num_payments` never amortizes — its final remaining balance is the
full principal, far beyond the claimed `0.01 × num_payments` tolerance. -/
theorem claim_C2_counterexample :
    getRemainingBalances (initMortgageTrack (4 / 100) 1 100000 none none
        none 1) = .ok [100000] ∧
    (1 / 100 : ℚ) * 1 < 100000 := by
  refine ⟨by decide, by decide⟩

/-- Witness for C2: a 2-month 4% default-arrays track amortizes to exactly
0. -/
theorem claim_C2_witness :
    ∃ bal : List ℚ, getRemainingBalances
        (initMortgageTrack (4 / 100) 2 100000 none none none 0) = .ok bal ∧
      bal.getLast? = some 0 :=
  claim_C2 (initMortgageTrack (4 / 100) 2 100000 none none none 0)
    (fun _ hq => List.eq_of_mem_replicate hq) (by decide) (by decide)
    (by decide)

/-! ## The fee-monotonicity development (claim C3) -/

end RealEstateModel
